import Mathlib

/-!
Verification of the gh-skyline geometry and serialization core.

The Go source computes all geometry in IEEE-754 double precision; this
development models those values as real numbers (ℝ), the standard
idealization: the model has no NaN or infinity, so the source's
NaN/Inf validity checks always succeed here.  Contribution counts are
modelled as ℕ: the Go field is an `int`, but the data model invariant
(types.ContributionDay.Validate, spec section 3) rejects negative counts.
Every definition is translated from the repository source, file and
function names preserved; the one exception, the binary serializer
(WriteSTLBinary), is absent from the source tree and is modelled from
the spec, as marked on its doc comment.
-/

/-- Model of types.Point3D: three float64 coordinates, modelled as reals. -/
structure Point3D where
  X : ℝ
  Y : ℝ
  Z : ℝ

/-- Model of errors.ErrorType from the errors package (visible through
errors_test.go and the call sites: ValidationError, STLError, NetworkError,
IOError, GraphQLError). -/
inductive ErrorType where
  | ValidationError
  | STLError
  | NetworkError
  | IOError
  | GraphQLError
deriving DecidableEq

/-- Model of errors.SkylineError: an error type plus a message.  The Go
struct keeps the underlying error as a field and composes messages in
Error(); the model keeps the composed message directly. -/
structure SkylineError where
  etype : ErrorType
  message : String
deriving DecidableEq

/-- Model of errors.New(type, message, err): builds a SkylineError of the
given type; with an underlying error the rendered message is
"message: underlying" (per errors_test.go). -/
def ErrNew (t : ErrorType) (msg : String) (err : Option SkylineError) : SkylineError :=
  match err with
  | none => ⟨t, msg⟩
  | some e => ⟨t, msg ++ ": " ++ e.message⟩

/-- Model of errors.Wrap(err, message) on a SkylineError: preserves the
error type and prepends the message (per errors_test.go,
"wrap SkylineError preserves type"). -/
def Wrap (err : SkylineError) (msg : String) : SkylineError :=
  ⟨err.etype, msg ++ ": " ++ err.message⟩

/-- Model of Point3D.IsValid: the Go code checks for NaN and infinity;
in the real-number model every coordinate is finite, so the check always
succeeds. -/
def pointIsValid (_ : Point3D) : Bool := true

/-- Model of types.Triangle: a normal vector plus three vertices. -/
structure Triangle where
  Normal : Point3D
  V1 : Point3D
  V2 : Point3D
  V3 : Point3D

/-- Model of geometry.vectorSubtract (stl/geometry/vector.go). -/
def vectorSubtract (a b : Point3D) : Point3D :=
  ⟨a.X - b.X, a.Y - b.Y, a.Z - b.Z⟩

/-- Model of geometry.vectorCross (stl/geometry/vector.go). -/
def vectorCross (u v : Point3D) : Point3D :=
  ⟨u.Y * v.Z - u.Z * v.Y, u.Z * v.X - u.X * v.Z, u.X * v.Y - u.Y * v.X⟩

/-- The epsilon used by geometry.isZeroVector (stl/geometry/vector.go). -/
def zeroEps : ℝ := 1e-10

/-- Model of geometry.isZeroVector: a componentwise test, true when every
component has absolute value below 1e-10. -/
def isZeroVector (v : Point3D) : Prop :=
  |v.X| < zeroEps ∧ |v.Y| < zeroEps ∧ |v.Z| < zeroEps

noncomputable instance (v : Point3D) : Decidable (isZeroVector v) := by
  unfold isZeroVector; infer_instance

/-- Model of geometry.normalizeVector: divides by the Euclidean length
when it is positive, otherwise returns the vector unchanged. -/
noncomputable def normalizeVector (v : Point3D) : Point3D :=
  let length := Real.sqrt (v.X * v.X + v.Y * v.Y + v.Z * v.Z)
  if length > 0 then ⟨v.X / length, v.Y / length, v.Z / length⟩ else v

/-- Model of geometry.validateVector: fails when the point is invalid;
always succeeds in the real-number model. -/
def validateVector (v : Point3D) : Option SkylineError :=
  if pointIsValid v then none
  else some (ErrNew .ValidationError "vector contains invalid components" none)

/-- Model of geometry.calculateNormal (stl/geometry/vector.go): validates
the three points, takes the cross product of the two edge vectors from p1,
rejects it when isZeroVector holds, and otherwise normalizes it. -/
noncomputable def calculateNormal (p1 p2 p3 : Point3D) :
    Except SkylineError Point3D :=
  match validateVector p1 with
  | some e => .error e
  | none =>
  match validateVector p2 with
  | some e => .error e
  | none =>
  match validateVector p3 with
  | some e => .error e
  | none =>
    let u := vectorSubtract p2 p1
    let v := vectorSubtract p3 p1
    let normal := vectorCross u v
    if isZeroVector normal then
      .error (ErrNew .ValidationError "degenerate triangle" none)
    else
      .ok (normalizeVector normal)

/-- Sum of squared components, used to state unit-magnitude facts without
a square root. -/
def sumSq (p : Point3D) : ℝ := p.X * p.X + p.Y * p.Y + p.Z * p.Z

/-- Magnitude of the cross product of the two edge vectors of a triangle,
as the spec describes it for computeNormal. -/
noncomputable def crossMagnitude (p1 p2 p3 : Point3D) : ℝ :=
  Real.sqrt (sumSq (vectorCross (vectorSubtract p2 p1) (vectorSubtract p3 p1)))

/-- Model dimension constants from stl/geometry/geometry.go. -/
def BaseHeight : ℝ := 10.0

/-- Maximum height for contribution columns. -/
def MaxHeight : ℝ := 25.0

/-- Size of each contribution cell. -/
def CellSize : ℝ := 2.5

/-- Number of weeks in a year (the maximum grid size). -/
def GridSize : ℕ := 53

/-- Minimum height for any contribution column. -/
def MinHeight : ℝ := CellSize

/-- Model of geometry.NormalizeContribution (stl/geometry/geometry.go).
The count is a contribution count, hence ℕ; maxCount is kept as ℤ because
the source explicitly branches on maxCount being zero or negative. -/
noncomputable def NormalizeContribution (count : ℕ) (maxCount : ℤ) : ℝ :=
  if count = 0 then 0
  else if maxCount ≤ 0 then MinHeight
  else
    MinHeight + (Real.sqrt count / Real.sqrt (maxCount : ℝ)) * (MaxHeight - MinHeight)

/-- Model of geometry.CreateQuad (stl/geometry shapes source): computes one
normal from the first three vertices and emits the two fan triangles
v1-v2-v3 and v1-v3-v4.  Only the first triangle is inspected by the
normal computation. -/
noncomputable def CreateQuad (v1 v2 v3 v4 : Point3D) :
    Except SkylineError (List Triangle) :=
  match calculateNormal v1 v2 v3 with
  | .error e => .error (Wrap e "failed to calculate quad normal")
  | .ok normal => .ok [⟨normal, v1, v2, v3⟩, ⟨normal, v1, v3, v4⟩]

/-- Model of geometry.createBox: rejects negative dimensions, builds the
8 corner vertices, and emits the six face quads in source order (front,
back, left, right, top, bottom), aborting on the first quad failure with
an STLError wrapping it. -/
noncomputable def createBox (x y z width height depth : ℝ) :
    Except SkylineError (List Triangle) :=
  if width < 0 ∨ height < 0 ∨ depth < 0 then
    .error (ErrNew .ValidationError "negative dimensions not allowed" none)
  else
    let v0 : Point3D := ⟨x, y, z⟩
    let v1 : Point3D := ⟨x + width, y, z⟩
    let v2 : Point3D := ⟨x + width, y + height, z⟩
    let v3 : Point3D := ⟨x, y + height, z⟩
    let v4 : Point3D := ⟨x, y, z + depth⟩
    let v5 : Point3D := ⟨x + width, y, z + depth⟩
    let v6 : Point3D := ⟨x + width, y + height, z + depth⟩
    let v7 : Point3D := ⟨x, y + height, z + depth⟩
    match CreateQuad v0 v1 v2 v3 with
    | .error e => .error (ErrNew .STLError "failed to create quad" (some e))
    | .ok front =>
    match CreateQuad v5 v4 v7 v6 with
    | .error e => .error (ErrNew .STLError "failed to create quad" (some e))
    | .ok back =>
    match CreateQuad v4 v0 v3 v7 with
    | .error e => .error (ErrNew .STLError "failed to create quad" (some e))
    | .ok left =>
    match CreateQuad v1 v5 v6 v2 with
    | .error e => .error (ErrNew .STLError "failed to create quad" (some e))
    | .ok right =>
    match CreateQuad v3 v2 v6 v7 with
    | .error e => .error (ErrNew .STLError "failed to create quad" (some e))
    | .ok top =>
    match CreateQuad v4 v5 v1 v0 with
    | .error e => .error (ErrNew .STLError "failed to create quad" (some e))
    | .ok bottom =>
      .ok (front ++ back ++ left ++ right ++ top ++ bottom)

/-- Model of geometry.CreateCuboidBase: a box from Z = -BaseHeight up to
Z = 0. -/
noncomputable def CreateCuboidBase (width depth : ℝ) :
    Except SkylineError (List Triangle) :=
  createBox 0 0 (-BaseHeight) width depth BaseHeight

/-- Model of geometry.CreateColumn: a square column starting at z = 0. -/
noncomputable def CreateColumn (x y height size : ℝ) :
    Except SkylineError (List Triangle) :=
  createBox x y 0 size size height

/-- Model of geometry.CreateCube. -/
noncomputable def CreateCube (x y z width height depth : ℝ) :
    Except SkylineError (List Triangle) :=
  createBox x y z width height depth

/-- The error value produced by createBox when a face quad degenerates:
an STLError wrapping the degenerate-triangle validation error.  Every
face produces this same value, because the message chain does not
mention the face. -/
def quadFailError : SkylineError :=
  ErrNew .STLError "failed to create quad"
    (some (Wrap (ErrNew .ValidationError "degenerate triangle" none)
      "failed to calculate quad normal"))

/-- The twelve triangles createBox emits on success, written out with the
normals already normalized: the front/back faces get normal (0,0,±1), the
left/right faces (±1,0,0), and the top/bottom faces (0,∓1,0). -/
def boxTriangles (x y z width height depth : ℝ) : List Triangle :=
  let v0 : Point3D := ⟨x, y, z⟩
  let v1 : Point3D := ⟨x + width, y, z⟩
  let v2 : Point3D := ⟨x + width, y + height, z⟩
  let v3 : Point3D := ⟨x, y + height, z⟩
  let v4 : Point3D := ⟨x, y, z + depth⟩
  let v5 : Point3D := ⟨x + width, y, z + depth⟩
  let v6 : Point3D := ⟨x + width, y + height, z + depth⟩
  let v7 : Point3D := ⟨x, y + height, z + depth⟩
  [⟨⟨0, 0, 1⟩, v0, v1, v2⟩, ⟨⟨0, 0, 1⟩, v0, v2, v3⟩,
   ⟨⟨0, 0, -1⟩, v5, v4, v7⟩, ⟨⟨0, 0, -1⟩, v5, v7, v6⟩,
   ⟨⟨1, 0, 0⟩, v4, v0, v3⟩, ⟨⟨1, 0, 0⟩, v4, v3, v7⟩,
   ⟨⟨-1, 0, 0⟩, v1, v5, v6⟩, ⟨⟨-1, 0, 0⟩, v1, v6, v2⟩,
   ⟨⟨0, -1, 0⟩, v3, v2, v6⟩, ⟨⟨0, -1, 0⟩, v3, v6, v7⟩,
   ⟨⟨0, 1, 0⟩, v4, v5, v1⟩, ⟨⟨0, 1, 0⟩, v4, v1, v0⟩]

/-- The eight corner vertices of a box, in index order. -/
def boxCorners (x y z width height depth : ℝ) : List Point3D :=
  [⟨x, y, z⟩, ⟨x + width, y, z⟩, ⟨x + width, y + height, z⟩,
   ⟨x, y + height, z⟩, ⟨x, y, z + depth⟩, ⟨x + width, y, z + depth⟩,
   ⟨x + width, y + height, z + depth⟩, ⟨x, y + height, z + depth⟩]

/-- All vertices mentioned by a list of triangles. -/
def triangleVertices (ts : List Triangle) : List Point3D :=
  (ts.map (fun t => [t.V1, t.V2, t.V3])).flatten

/-- Model of types.ContributionDay: a count and a date.  The count is ℕ
because the data model validates it non-negative. -/
structure ContributionDay where
  ContributionCount : ℕ
  Date : String
deriving DecidableEq

/-- A single year of contributions: weeks of days. -/
abbrev Grid := List (List ContributionDay)

/-- Sequentially runs a triangle-producing step over a list, concatenating
the outputs and stopping at the first error (the shape of the Go loops
that append columnTriangles and return on err). -/
def collectTriangles {α : Type} (f : α → Except SkylineError (List Triangle)) :
    List α → Except SkylineError (List Triangle)
  | [] => .ok []
  | a :: rest =>
    match f a with
    | .error e => .error e
    | .ok ts =>
      match collectTriangles f rest with
      | .error e => .error e
      | .ok more => .ok (ts ++ more)

/-- Model of geometry.CreateContributionGeometry
(stl/geometry/geometry.go): for every day with positive count, a column
of normalized height at the week/day lattice position, offset per year;
the first column failure aborts the year with that error. -/
noncomputable def CreateContributionGeometry (contributions : Grid)
    (yearIndex : ℕ) (maxContrib : ℤ) : Except SkylineError (List Triangle) :=
  collectTriangles (fun wk =>
    collectTriangles (fun dy =>
      if 0 < dy.2.ContributionCount then
        CreateColumn (CellSize + (wk.1 : ℝ) * CellSize)
          ((CellSize + (yearIndex : ℝ) * 7 * CellSize) + (dy.1 : ℝ) * CellSize)
          (NormalizeContribution dy.2.ContributionCount maxContrib) CellSize
      else .ok []) wk.2.enum) contributions.enum

/-- Model of the stl package geometryResult: triangles plus an optional
error sent back on a producer channel. -/
structure geometryResult where
  triangles : List Triangle
  err : Option SkylineError

/-- The absorption pattern shared by generateBase, generateText and
generateLogo (stl/generator.go): a failure of the underlying geometry
producer is logged as a warning and replaced by an empty triangle list;
the err field is populated only when writing that warning log itself
fails, and the model logger always succeeds. -/
def absorbToWarning (r : Except SkylineError (List Triangle)) : geometryResult :=
  match r with
  | .error _ => ⟨[], none⟩
  | .ok ts => ⟨ts, none⟩

/-- Model of stl.generateBase: builds the cuboid base and absorbs any
failure into a warning with empty triangles. -/
noncomputable def generateBase (dims_innerWidth dims_innerDepth : ℝ) :
    geometryResult :=
  absorbToWarning (CreateCuboidBase dims_innerWidth dims_innerDepth)

/-- Model of stl.generateColumnsForYearRange: processes years in reverse
order (most recent year at yearOffset 0), skipping any year whose column
generation fails; the loop i = n-1 down to 0 with yearOffset n-1-i is the
enumeration of the reversed year list.  No error is ever sent: failures
are logged as warnings and the year skipped. -/
noncomputable def generateColumnsForYearRange
    (contributionsPerYear : List Grid) (maxContrib : ℤ) : geometryResult :=
  ⟨(contributionsPerYear.reverse.enum).foldl (fun acc p =>
      match CreateContributionGeometry p.2 p.1 maxContrib with
      | .error _ => acc
      | .ok ts => acc ++ ts) [], none⟩

/-- The four geometry producers, the keys of the Go channel map in
stl.generateModelGeometry. -/
inductive Component where
  | base
  | columns
  | text
  | image
deriving DecidableEq

/-- The channel-map key for each producer. -/
def componentName : Component → String
  | .base => "base"
  | .columns => "columns"
  | .text => "text"
  | .image => "image"

/-- The collection loop of stl.generateModelGeometry: visits the producer
results in the map iteration order given by order, fails on the first
result carrying an error, and otherwise concatenates the triangle lists
in that same order.  Go iterates the channel map in randomized order, so
order is a parameter: any permutation of the four components is a
possible run. -/
def assembleResults (order : List Component)
    (res : Component → geometryResult) : Except SkylineError (List Triangle) :=
  match order with
  | [] => .ok []
  | c :: rest =>
    match (res c).err with
    | some e =>
      .error (Wrap e ("failed to generate " ++ componentName c ++ " geometry"))
    | none =>
      match assembleResults rest res with
      | .error e => .error e
      | .ok tris => .ok ((res c).triangles ++ tris)

/-- The result each producer sends on its channel.  The text and image
producers depend on embedded font and image assets loaded at run time, so
their underlying outcomes are passed in as textResult and imageResult. -/
noncomputable def producerResults (contributionsPerYear : List Grid)
    (dims_innerWidth dims_innerDepth : ℝ) (maxContrib : ℤ)
    (textResult imageResult : Except SkylineError (List Triangle)) :
    Component → geometryResult
  | .base => generateBase dims_innerWidth dims_innerDepth
  | .columns => generateColumnsForYearRange contributionsPerYear maxContrib
  | .text => absorbToWarning textResult
  | .image => absorbToWarning imageResult

/-- Model of stl.generateModelGeometry: rejects an empty year list, then
runs the four producers and collects their results in the map iteration
order. -/
noncomputable def generateModelGeometry (order : List Component)
    (contributionsPerYear : List Grid)
    (dims_innerWidth dims_innerDepth : ℝ) (maxContrib : ℤ)
    (textResult imageResult : Except SkylineError (List Triangle)) :
    Except SkylineError (List Triangle) :=
  match contributionsPerYear with
  | [] => .error (ErrNew .ValidationError "contributions data cannot be empty" none)
  | _ :: _ =>
    assembleResults order
      (producerResults contributionsPerYear dims_innerWidth dims_innerDepth
        maxContrib textResult imageResult)

/-- Model of stl.validateInput: checks the given single-year grid (week
count bounds) and the output path and username. -/
def validateInput (contributions : Grid) (outputPath username : String) :
    Option SkylineError :=
  if contributions.length = 0 then
    some (ErrNew .ValidationError "contributions data cannot be empty" none)
  else if GridSize < contributions.length then
    some (ErrNew .ValidationError "contributions data exceeds maximum grid size" none)
  else if outputPath = "" then
    some (ErrNew .ValidationError "output path cannot be empty" none)
  else if username = "" then
    some (ErrNew .ValidationError "username cannot be empty" none)
  else none

/-- Model of geometry.CalculateMultiYearDimensions: width from the fixed
week count, depth from 7 days per year, plus one cell of padding on each
side. -/
def CalculateMultiYearDimensions (yearCount : ℕ) : ℝ × ℝ :=
  ((GridSize : ℝ) * CellSize + 2 * CellSize,
    ((7 * yearCount : ℕ) : ℝ) * CellSize + 2 * CellSize)

/-- Model of stl.modelDimensions. -/
structure modelDimensions where
  innerWidth : ℝ
  innerDepth : ℝ
  imagePath : String

/-- Model of stl.calculateDimensions: rejects a non-positive year count
(zero, since the count of a list is natural), computes the model
dimensions and sanity-checks them. -/
noncomputable def calculateDimensions (yearCount : ℕ) :
    Except SkylineError modelDimensions :=
  if yearCount = 0 then
    .error (ErrNew .ValidationError "year count must be positive" none)
  else
    let wd := if yearCount ≤ 1 then CalculateMultiYearDimensions 1
              else CalculateMultiYearDimensions yearCount
    let dims : modelDimensions := ⟨wd.1, wd.2, "assets/invertocat.png"⟩
    if dims.innerWidth ≤ 0 ∨ dims.innerDepth ≤ 0 then
      .error (ErrNew .ValidationError "invalid model dimensions" none)
    else .ok dims

/-- Model of stl.findMaxContributions: running maximum over all days. -/
def findMaxContributions (contributions : Grid) : ℕ :=
  contributions.foldl
    (fun acc week => week.foldl (fun a d => Nat.max a d.ContributionCount) acc) 0

/-- Model of stl.findMaxContributionsAcrossYears. -/
def findMaxContributionsAcrossYears (contributionsPerYear : List Grid) : ℕ :=
  contributionsPerYear.foldl (fun acc y => Nat.max acc (findMaxContributions y)) 0

/-- The observable outcome of one GenerateSTLRange run: a Go runtime
panic, an error return, or a successful run writing the given triangle
list to the output file. -/
inductive RunOutcome where
  | panicked
  | failed (e : SkylineError)
  | wrote (triangles : List Triangle)

/-- Whether a run completed and wrote an output file. -/
def RunOutcome.wroteFile : RunOutcome → Prop
  | .wrote _ => True
  | _ => False

/-- The pipeline of stl.GenerateSTLRange after input validation has
passed: dimension calculation, global maximum, geometry generation, and
the file write. -/
noncomputable def generatePostValidation (order : List Component)
    (contributionsPerYear : List Grid) (_startYear _endYear : ℤ)
    (textResult imageResult : Except SkylineError (List Triangle)) :
    RunOutcome :=
  match calculateDimensions contributionsPerYear.length with
  | .error e => .failed (Wrap e "failed to calculate dimensions")
  | .ok dims =>
    match generateModelGeometry order contributionsPerYear
        dims.innerWidth dims.innerDepth
        (findMaxContributionsAcrossYears contributionsPerYear)
        textResult imageResult with
    | .error e => .failed (Wrap e "failed to generate geometry")
    | .ok tris => .wrote tris

/-- Model of stl.GenerateSTLRange.  The source calls
validateInput(contributions[0], ...): on an empty year list that index
expression panics (index out of range) before any validation runs, which
the model makes explicit; otherwise only the first year is validated and
the pipeline continues on the whole list.  The model logger always
succeeds, so the logging error paths are not taken. -/
noncomputable def GenerateSTLRange (order : List Component)
    (contributions : List Grid) (outputPath username : String)
    (startYear endYear : ℤ)
    (textResult imageResult : Except SkylineError (List Triangle)) :
    RunOutcome :=
  match contributions with
  | [] => .panicked
  | c0 :: _ =>
    match validateInput c0 outputPath username with
    | some e => .failed (Wrap e "input validation failed")
    | none =>
      generatePostValidation order contributions startYear endYear
        textResult imageResult

/-- Four little-endian bytes of an unsigned 32-bit count. -/
def uint32LE (n : ℕ) : List ℕ :=
  [n % 256, n / 256 % 256, n / 256 ^ 2 % 256, n / 256 ^ 3 % 256]

/-- The number a little-endian byte list denotes. -/
def leValue : List ℕ → ℕ
  | [] => 0
  | b :: rest => b + 256 * leValue rest

/-- The twelve 4-byte component fields of one triangle record: normal
then the three vertices, each X, Y, Z.  enc is the 4-byte little-endian
IEEE-754 single-precision encoding of a double-precision source value
(the composition of Triangle.ToFloat32 from types/types.go with the byte
serialization); it is kept abstract because the model carries reals. -/
def triangleRecord (enc : ℝ → List ℕ) (t : Triangle) : List ℕ :=
  enc t.Normal.X ++ enc t.Normal.Y ++ enc t.Normal.Z ++
  enc t.V1.X ++ enc t.V1.Y ++ enc t.V1.Z ++
  enc t.V2.X ++ enc t.V2.Y ++ enc t.V2.Z ++
  enc t.V3.X ++ enc t.V3.Y ++ enc t.V3.Z ++ [0, 0]

/-- Modelled from the spec: WriteSTLBinary is declared in the stl package
but its source file is not in the repository snapshot (only its callers
and tests are), so the serializer is modelled from spec section 4.6: an
80-byte zero-filled header, a 4-byte little-endian triangle count, then
one 50-byte record per triangle whose numeric fields are the
double-precision sources converted to single precision by enc at this
boundary, with the trailing 2-byte attribute field written as zero. -/
def WriteSTLBinary (enc : ℝ → List ℕ) (triangles : List Triangle) : List ℕ :=
  List.replicate 80 0 ++ uint32LE triangles.length ++
    (triangles.map (triangleRecord enc)).flatten

/-- The fixed producer ordering the spec proposes (base, columns, text,
emblem), one of the possible map iteration orders. -/
def stdOrder : List Component := [.base, .columns, .text, .image]

/-- A second possible map iteration order, differing in the first two
components. -/
def swappedOrder : List Component := [.columns, .base, .text, .image]

/-- A sample base triangle used to exhibit order dependence. -/
def sampleBaseTriangle : Triangle := ⟨⟨0, 0, 1⟩, ⟨0, 0, 0⟩, ⟨1, 0, 0⟩, ⟨0, 1, 0⟩⟩

/-- A sample column triangle used to exhibit order dependence. -/
def sampleColumnTriangle : Triangle := ⟨⟨0, 0, 1⟩, ⟨0, 0, 0⟩, ⟨2, 0, 0⟩, ⟨0, 2, 0⟩⟩

/-- Producer results where the base and columns producers return one
triangle each and the decorative producers return nothing. -/
def sampleResults : Component → geometryResult
  | .base => ⟨[sampleBaseTriangle], none⟩
  | .columns => ⟨[sampleColumnTriangle], none⟩
  | .text => ⟨[], none⟩
  | .image => ⟨[], none⟩

/-- A week with no contributions. -/
def zeroWeek : List ContributionDay := List.replicate 7 ⟨0, "2023-01-01"⟩

/-- A one-week year with no contributions. -/
def zeroYearGrid : Grid := [zeroWeek]

/-- A year with more weeks than the grid size allows. -/
def oversizedYearGrid : Grid := List.replicate 54 zeroWeek

/-- First batch of lemmas: evaluation of the vector layer. -/
theorem normalizeVector_eval (v : Point3D) (L : ℝ) (hL : 0 < L)
    (hsq : v.X * v.X + v.Y * v.Y + v.Z * v.Z = L * L) :
    normalizeVector v = ⟨v.X / L, v.Y / L, v.Z / L⟩ := by
  unfold normalizeVector
  rw [hsq, Real.sqrt_mul_self hL.le, if_pos hL]

theorem sumSq_nonneg (v : Point3D) : 0 ≤ sumSq v := by
  unfold sumSq
  nlinarith [mul_self_nonneg v.X, mul_self_nonneg v.Y, mul_self_nonneg v.Z]

theorem sumSq_pos_of_not_isZero (v : Point3D) (h : ¬ isZeroVector v) :
    0 < sumSq v := by
  rcases (sumSq_nonneg v).lt_or_eq with hlt | heq
  · exact hlt
  · exfalso
    apply h
    have hsum : v.X * v.X + v.Y * v.Y + v.Z * v.Z = 0 := by
      unfold sumSq at heq; linarith
    have hx : v.X = 0 := by
      nlinarith [mul_self_nonneg v.X, mul_self_nonneg v.Y, mul_self_nonneg v.Z]
    have hy : v.Y = 0 := by
      nlinarith [mul_self_nonneg v.X, mul_self_nonneg v.Y, mul_self_nonneg v.Z]
    have hz : v.Z = 0 := by
      nlinarith [mul_self_nonneg v.X, mul_self_nonneg v.Y, mul_self_nonneg v.Z]
    refine ⟨?_, ?_, ?_⟩ <;> simp [hx, hy, hz, zeroEps] <;> norm_num

theorem sumSq_normalize (v : Point3D) (h : 0 < sumSq v) :
    sumSq (normalizeVector v) = 1 := by
  have hL : 0 < Real.sqrt (v.X * v.X + v.Y * v.Y + v.Z * v.Z) := by
    apply Real.sqrt_pos.mpr
    unfold sumSq at h; linarith
  unfold normalizeVector sumSq
  rw [if_pos hL]
  have hsq : Real.sqrt (v.X * v.X + v.Y * v.Y + v.Z * v.Z) *
      Real.sqrt (v.X * v.X + v.Y * v.Y + v.Z * v.Z) =
      v.X * v.X + v.Y * v.Y + v.Z * v.Z := by
    apply Real.mul_self_sqrt
    unfold sumSq at h; linarith
  field_simp
  rw [hsq]

theorem calculateNormal_ok (p1 p2 p3 c : Point3D)
    (hc : vectorCross (vectorSubtract p2 p1) (vectorSubtract p3 p1) = c)
    (h : ¬ isZeroVector c) :
    calculateNormal p1 p2 p3 = .ok (normalizeVector c) := by
  unfold calculateNormal validateVector pointIsValid
  simp only [if_pos]
  rw [hc, if_neg h]

theorem calculateNormal_err (p1 p2 p3 c : Point3D)
    (hc : vectorCross (vectorSubtract p2 p1) (vectorSubtract p3 p1) = c)
    (h : isZeroVector c) :
    calculateNormal p1 p2 p3 =
      .error (ErrNew .ValidationError "degenerate triangle" none) := by
  unfold calculateNormal validateVector pointIsValid
  simp only [if_pos]
  rw [hc, if_pos h]

theorem CreateQuad_ok (v1 v2 v3 v4 c : Point3D)
    (hc : vectorCross (vectorSubtract v2 v1) (vectorSubtract v3 v1) = c)
    (h : ¬ isZeroVector c) :
    CreateQuad v1 v2 v3 v4 =
      .ok [⟨normalizeVector c, v1, v2, v3⟩, ⟨normalizeVector c, v1, v3, v4⟩] := by
  unfold CreateQuad
  rw [calculateNormal_ok v1 v2 v3 c hc h]

theorem CreateQuad_err (v1 v2 v3 v4 c : Point3D)
    (hc : vectorCross (vectorSubtract v2 v1) (vectorSubtract v3 v1) = c)
    (h : isZeroVector c) :
    CreateQuad v1 v2 v3 v4 =
      .error (Wrap (ErrNew .ValidationError "degenerate triangle" none)
        "failed to calculate quad normal") := by
  unfold CreateQuad
  rw [calculateNormal_err v1 v2 v3 c hc h]

theorem isZero_axisZ (p : ℝ) (hp : 0 ≤ p) :
    isZeroVector ⟨0, 0, p⟩ ↔ p < zeroEps := by
  simp [isZeroVector, zeroEps, abs_of_nonneg hp]
  norm_num

theorem isZero_axisZneg (p : ℝ) (hp : 0 ≤ p) :
    isZeroVector ⟨0, 0, -p⟩ ↔ p < zeroEps := by
  simp [isZeroVector, zeroEps, abs_of_nonneg hp]
  norm_num

theorem isZero_axisX (p : ℝ) (hp : 0 ≤ p) :
    isZeroVector ⟨p, 0, 0⟩ ↔ p < zeroEps := by
  simp [isZeroVector, zeroEps, abs_of_nonneg hp]
  norm_num

theorem isZero_axisXneg (p : ℝ) (hp : 0 ≤ p) :
    isZeroVector ⟨-p, 0, 0⟩ ↔ p < zeroEps := by
  simp [isZeroVector, zeroEps, abs_of_nonneg hp]
  norm_num

theorem isZero_axisY (p : ℝ) (hp : 0 ≤ p) :
    isZeroVector ⟨0, p, 0⟩ ↔ p < zeroEps := by
  simp [isZeroVector, zeroEps, abs_of_nonneg hp]
  norm_num

theorem isZero_axisYneg (p : ℝ) (hp : 0 ≤ p) :
    isZeroVector ⟨0, -p, 0⟩ ↔ p < zeroEps := by
  simp [isZeroVector, zeroEps, abs_of_nonneg hp]
  norm_num

theorem normalize_axisZ (p : ℝ) (hp : 0 < p) :
    normalizeVector ⟨0, 0, p⟩ = ⟨0, 0, 1⟩ := by
  rw [normalizeVector_eval ⟨0, 0, p⟩ p hp (by ring)]
  simp only [zero_div, div_self hp.ne']

theorem normalize_axisZneg (p : ℝ) (hp : 0 < p) :
    normalizeVector ⟨0, 0, -p⟩ = ⟨0, 0, -1⟩ := by
  rw [normalizeVector_eval ⟨0, 0, -p⟩ p hp (by ring)]
  simp only [zero_div, neg_div, div_self hp.ne']

theorem normalize_axisX (p : ℝ) (hp : 0 < p) :
    normalizeVector ⟨p, 0, 0⟩ = ⟨1, 0, 0⟩ := by
  rw [normalizeVector_eval ⟨p, 0, 0⟩ p hp (by ring)]
  simp only [zero_div, div_self hp.ne']

theorem normalize_axisXneg (p : ℝ) (hp : 0 < p) :
    normalizeVector ⟨-p, 0, 0⟩ = ⟨-1, 0, 0⟩ := by
  rw [normalizeVector_eval ⟨-p, 0, 0⟩ p hp (by ring)]
  simp only [zero_div, neg_div, div_self hp.ne']

theorem normalize_axisY (p : ℝ) (hp : 0 < p) :
    normalizeVector ⟨0, p, 0⟩ = ⟨0, 1, 0⟩ := by
  rw [normalizeVector_eval ⟨0, p, 0⟩ p hp (by ring)]
  simp only [zero_div, div_self hp.ne']

theorem normalize_axisYneg (p : ℝ) (hp : 0 < p) :
    normalizeVector ⟨0, -p, 0⟩ = ⟨0, -1, 0⟩ := by
  rw [normalizeVector_eval ⟨0, -p, 0⟩ p hp (by ring)]
  simp only [zero_div, neg_div, div_self hp.ne']

theorem crossFace_front (x y z w h : ℝ) :
    vectorCross (vectorSubtract ⟨x + w, y, z⟩ ⟨x, y, z⟩)
      (vectorSubtract ⟨x + w, y + h, z⟩ ⟨x, y, z⟩) = ⟨0, 0, w * h⟩ := by
  simp only [vectorSubtract, vectorCross, Point3D.mk.injEq]
  refine ⟨by ring, by ring, by ring⟩

theorem crossFace_back (x y z w h d : ℝ) :
    vectorCross (vectorSubtract ⟨x, y, z + d⟩ ⟨x + w, y, z + d⟩)
      (vectorSubtract ⟨x, y + h, z + d⟩ ⟨x + w, y, z + d⟩) = ⟨0, 0, -(w * h)⟩ := by
  simp only [vectorSubtract, vectorCross, Point3D.mk.injEq]
  refine ⟨by ring, by ring, by ring⟩

theorem crossFace_left (x y z h d : ℝ) :
    vectorCross (vectorSubtract ⟨x, y, z⟩ ⟨x, y, z + d⟩)
      (vectorSubtract ⟨x, y + h, z⟩ ⟨x, y, z + d⟩) = ⟨d * h, 0, 0⟩ := by
  simp only [vectorSubtract, vectorCross, Point3D.mk.injEq]
  refine ⟨by ring, by ring, by ring⟩

theorem crossFace_right (x y z w h d : ℝ) :
    vectorCross (vectorSubtract ⟨x + w, y, z + d⟩ ⟨x + w, y, z⟩)
      (vectorSubtract ⟨x + w, y + h, z + d⟩ ⟨x + w, y, z⟩) = ⟨-(d * h), 0, 0⟩ := by
  simp only [vectorSubtract, vectorCross, Point3D.mk.injEq]
  refine ⟨by ring, by ring, by ring⟩

theorem crossFace_top (x y z w h d : ℝ) :
    vectorCross (vectorSubtract ⟨x + w, y + h, z⟩ ⟨x, y + h, z⟩)
      (vectorSubtract ⟨x + w, y + h, z + d⟩ ⟨x, y + h, z⟩) = ⟨0, -(w * d), 0⟩ := by
  simp only [vectorSubtract, vectorCross, Point3D.mk.injEq]
  refine ⟨by ring, by ring, by ring⟩

theorem crossFace_bottom (x y z w d : ℝ) :
    vectorCross (vectorSubtract ⟨x + w, y, z + d⟩ ⟨x, y, z + d⟩)
      (vectorSubtract ⟨x + w, y, z⟩ ⟨x, y, z + d⟩) = ⟨0, w * d, 0⟩ := by
  simp only [vectorSubtract, vectorCross, Point3D.mk.injEq]
  refine ⟨by ring, by ring, by ring⟩

theorem zeroEps_pos : (0 : ℝ) < zeroEps := by norm_num [zeroEps]

theorem createBox_ok (x y z w h d : ℝ) (hw : 0 ≤ w) (hh : 0 ≤ h) (hd : 0 ≤ d)
    (h1 : zeroEps ≤ w * h) (h2 : zeroEps ≤ d * h) (h3 : zeroEps ≤ w * d) :
    createBox x y z w h d = .ok (boxTriangles x y z w h d) := by
  have hwh : 0 < w * h := lt_of_lt_of_le zeroEps_pos h1
  have hdh : 0 < d * h := lt_of_lt_of_le zeroEps_pos h2
  have hwd : 0 < w * d := lt_of_lt_of_le zeroEps_pos h3
  unfold createBox
  rw [if_neg (by push_neg; exact ⟨hw, hh, hd⟩)]
  dsimp only
  rw [CreateQuad_ok _ _ _ _ _ (crossFace_front x y z w h)
        (by rw [isZero_axisZ _ hwh.le]; exact not_lt.mpr h1),
      CreateQuad_ok _ _ _ _ _ (crossFace_back x y z w h d)
        (by rw [isZero_axisZneg _ hwh.le]; exact not_lt.mpr h1),
      CreateQuad_ok _ _ _ _ _ (crossFace_left x y z h d)
        (by rw [isZero_axisX _ hdh.le]; exact not_lt.mpr h2),
      CreateQuad_ok _ _ _ _ _ (crossFace_right x y z w h d)
        (by rw [isZero_axisXneg _ hdh.le]; exact not_lt.mpr h2),
      CreateQuad_ok _ _ _ _ _ (crossFace_top x y z w h d)
        (by rw [isZero_axisYneg _ hwd.le]; exact not_lt.mpr h3),
      CreateQuad_ok _ _ _ _ _ (crossFace_bottom x y z w d)
        (by rw [isZero_axisY _ hwd.le]; exact not_lt.mpr h3)]
  rw [normalize_axisZ _ hwh, normalize_axisZneg _ hwh, normalize_axisX _ hdh,
      normalize_axisXneg _ hdh, normalize_axisYneg _ hwd, normalize_axisY _ hwd]
  rfl

theorem createBox_err (x y z w h d : ℝ) (hw : 0 ≤ w) (hh : 0 ≤ h) (hd : 0 ≤ d)
    (hlt : w * h < zeroEps ∨ d * h < zeroEps ∨ w * d < zeroEps) :
    createBox x y z w h d = .error quadFailError := by
  unfold createBox
  rw [if_neg (by push_neg; exact ⟨hw, hh, hd⟩)]
  dsimp only
  by_cases hwh : w * h < zeroEps
  · rw [CreateQuad_err _ _ _ _ _ (crossFace_front x y z w h)
          (by rw [isZero_axisZ _ (mul_nonneg hw hh)]; exact hwh)]
    rfl
  · rw [CreateQuad_ok _ _ _ _ _ (crossFace_front x y z w h)
          (by rw [isZero_axisZ _ (mul_nonneg hw hh)]; exact hwh),
        CreateQuad_ok _ _ _ _ _ (crossFace_back x y z w h d)
          (by rw [isZero_axisZneg _ (mul_nonneg hw hh)]; exact hwh)]
    by_cases hdh : d * h < zeroEps
    · rw [CreateQuad_err _ _ _ _ _ (crossFace_left x y z h d)
            (by rw [isZero_axisX _ (mul_nonneg hd hh)]; exact hdh)]
      rfl
    · rw [CreateQuad_ok _ _ _ _ _ (crossFace_left x y z h d)
            (by rw [isZero_axisX _ (mul_nonneg hd hh)]; exact hdh),
          CreateQuad_ok _ _ _ _ _ (crossFace_right x y z w h d)
            (by rw [isZero_axisXneg _ (mul_nonneg hd hh)]; exact hdh)]
      have hwd : w * d < zeroEps := by
        rcases hlt with a | b | c
        · exact absurd a hwh
        · exact absurd b hdh
        · exact c
      rw [CreateQuad_err _ _ _ _ _ (crossFace_top x y z w h d)
            (by rw [isZero_axisYneg _ (mul_nonneg hw hd)]; exact hwd)]
      rfl

theorem boxTriangles_length (x y z w h d : ℝ) :
    (boxTriangles x y z w h d).length = 12 := rfl

theorem boxTriangles_vertices (x y z w h d : ℝ) (p : Point3D) :
    p ∈ triangleVertices (boxTriangles x y z w h d) ↔
      p ∈ boxCorners x y z w h d := by
  simp [triangleVertices, boxTriangles, boxCorners]
  tauto

theorem boxCorners_pairwise (x y z w h d : ℝ)
    (hw : 0 < w) (hh : 0 < h) (hd : 0 < d) :
    (boxCorners x y z w h d).Pairwise (· ≠ ·) := by
  simp [boxCorners, List.pairwise_cons, Point3D.mk.injEq, hw.ne', hh.ne', hd.ne']

theorem boxTriangles_unit_normals (x y z w h d : ℝ) :
    ∀ t ∈ boxTriangles x y z w h d, sumSq t.Normal = 1 := by
  intro t ht
  simp [boxTriangles] at ht
  rcases ht with rfl | rfl | rfl | rfl | rfl | rfl | rfl | rfl | rfl | rfl | rfl | rfl <;>
    norm_num [sumSq]

/-- C4 (amended): for strictly positive dimensions whose pairwise products
are at least the 1e-10 degeneracy threshold, createBox succeeds with
exactly 12 triangles whose vertices are exactly the 8 pairwise-distinct
box corners, and every triangle's normal has unit magnitude (within the
1e-6 tolerance, in fact exactly). -/
theorem createBox_positive_dims_amended (x y z w h d : ℝ)
    (hw : 0 < w) (hh : 0 < h) (hd : 0 < d)
    (h1 : zeroEps ≤ w * h) (h2 : zeroEps ≤ d * h) (h3 : zeroEps ≤ w * d) :
    createBox x y z w h d = .ok (boxTriangles x y z w h d) ∧
    (boxTriangles x y z w h d).length = 12 ∧
    (∀ p, p ∈ triangleVertices (boxTriangles x y z w h d) ↔
      p ∈ boxCorners x y z w h d) ∧
    (boxCorners x y z w h d).length = 8 ∧
    (boxCorners x y z w h d).Pairwise (· ≠ ·) ∧
    ∀ t ∈ boxTriangles x y z w h d,
      sumSq t.Normal = 1 ∧ |Real.sqrt (sumSq t.Normal) - 1| ≤ 1e-6 := by
  refine ⟨createBox_ok x y z w h d hw.le hh.le hd.le h1 h2 h3,
    boxTriangles_length x y z w h d,
    boxTriangles_vertices x y z w h d,
    rfl,
    boxCorners_pairwise x y z w h d hw hh hd,
    ?_⟩
  intro t ht
  have hu := boxTriangles_unit_normals x y z w h d t ht
  refine ⟨hu, ?_⟩
  rw [hu, Real.sqrt_one]
  norm_num

/-- Witness for C4: a unit cube. -/
theorem createBox_positive_dims_amended_witness :
    createBox 0 0 0 1 1 1 = .ok (boxTriangles 0 0 0 1 1 1) ∧
    (boxTriangles 0 0 0 1 1 1).length = 12 ∧
    (∀ p, p ∈ triangleVertices (boxTriangles 0 0 0 1 1 1) ↔
      p ∈ boxCorners 0 0 0 1 1 1) ∧
    (boxCorners 0 0 0 1 1 1).length = 8 ∧
    (boxCorners 0 0 0 1 1 1).Pairwise (· ≠ ·) ∧
    ∀ t ∈ boxTriangles 0 0 0 1 1 1,
      sumSq t.Normal = 1 ∧ |Real.sqrt (sumSq t.Normal) - 1| ≤ 1e-6 :=
  createBox_positive_dims_amended 0 0 0 1 1 1 (by norm_num) (by norm_num)
    (by norm_num) (by norm_num [zeroEps]) (by norm_num [zeroEps])
    (by norm_num [zeroEps])

/-- Counterexample to C4 as stated: all three dimensions are strictly
positive (1e-6 each), yet createBox fails, because each face's cross
product (1e-12 on its only nonzero component) falls below the 1e-10
componentwise degeneracy threshold; no triangles are emitted. -/
theorem createBox_tiny_positive_fails :
    (0 : ℝ) < 1e-6 ∧
    createBox 0 0 0 1e-6 1e-6 1e-6 = .error quadFailError ∧
    (createBox 0 0 0 1e-6 1e-6 1e-6).isOk = false := by
  have herr : createBox 0 0 0 1e-6 1e-6 1e-6 = .error quadFailError := by
    apply createBox_err 0 0 0 1e-6 1e-6 1e-6 (by norm_num) (by norm_num)
      (by norm_num)
    exact Or.inl (by norm_num [zeroEps])
  refine ⟨by norm_num, herr, ?_⟩
  rw [herr]
  rfl

/-- C7 (amended): a negative dimension makes createBox (hence
CreateColumn) fail up front with the InvalidDimensions validation error
and zero triangles; a zero dimension also fails with zero triangles, but
through the degenerate-quad path, as an STL-classified error wrapping
DegenerateGeometry rather than InvalidDimensions. -/
theorem box_column_invalid_dims_amended (x y z w h d cx cy cheight csize : ℝ) :
    ((w < 0 ∨ h < 0 ∨ d < 0) →
      createBox x y z w h d =
        .error (ErrNew .ValidationError "negative dimensions not allowed" none)) ∧
    (0 ≤ w → 0 ≤ h → 0 ≤ d → (w = 0 ∨ h = 0 ∨ d = 0) →
      createBox x y z w h d = .error quadFailError ∧
        quadFailError.etype = .STLError) ∧
    ((csize < 0 ∨ cheight < 0) →
      CreateColumn cx cy cheight csize =
        .error (ErrNew .ValidationError "negative dimensions not allowed" none)) ∧
    (0 ≤ csize → 0 ≤ cheight → (csize = 0 ∨ cheight = 0) →
      CreateColumn cx cy cheight csize = .error quadFailError) := by
  refine ⟨?_, ?_, ?_, ?_⟩
  · intro hneg
    unfold createBox
    rw [if_pos hneg]
  · intro hw hh hd hzero
    refine ⟨createBox_err x y z w h d hw hh hd ?_, rfl⟩
    rcases hzero with hz | hz | hz
    · exact Or.inl (by rw [hz, zero_mul]; exact zeroEps_pos)
    · exact Or.inl (by rw [hz, mul_zero]; exact zeroEps_pos)
    · exact Or.inr (Or.inl (by rw [hz, zero_mul]; exact zeroEps_pos))
  · intro hneg
    unfold CreateColumn createBox
    rw [if_pos (by rcases hneg with hs | hht
                   · exact Or.inl hs
                   · exact Or.inr (Or.inr hht))]
  · intro hs hht hzero
    unfold CreateColumn
    apply createBox_err cx cy 0 csize csize cheight hs hs hht
    rcases hzero with hz | hz
    · exact Or.inl (by rw [hz, zero_mul]; exact zeroEps_pos)
    · exact Or.inr (Or.inl (by rw [hz, zero_mul]; exact zeroEps_pos))

/-- Witness for C7: a negative-width box, a zero-depth box, and a
negative-height and a zero-height column. -/
theorem box_column_invalid_dims_amended_witness :
    createBox 0 0 0 (-1) 1 1 =
      .error (ErrNew .ValidationError "negative dimensions not allowed" none) ∧
    createBox 0 0 0 1 1 0 = .error quadFailError ∧
    CreateColumn 0 0 (-1) 1 =
      .error (ErrNew .ValidationError "negative dimensions not allowed" none) ∧
    CreateColumn 0 0 0 1 = .error quadFailError := by
  have h := box_column_invalid_dims_amended 0 0 0 (-1) 1 1 0 0 (-1) 1
  have h2 := box_column_invalid_dims_amended 0 0 0 1 1 0 0 0 0 1
  refine ⟨h.1 (Or.inl (by norm_num)), ?_, ?_, ?_⟩
  · exact (h2.2.1 (by norm_num) (by norm_num) (by norm_num)
      (Or.inr (Or.inr rfl))).1
  · exact h.2.2.1 (Or.inr (by norm_num))
  · exact h2.2.2.2 (by norm_num) (by norm_num) (Or.inr rfl)

/-- Counterexample to C7 as stated: with a zero depth and positive width
and height, createBox does fail, but with an STL-classified
degenerate-quad error, not the InvalidDimensions validation error the
claim names. -/
theorem createBox_zero_dim_error_type :
    createBox 0 0 0 1 1 0 = .error quadFailError ∧
    quadFailError.etype = .STLError ∧
    quadFailError.etype ≠ .ValidationError := by
  refine ⟨?_, rfl, by decide⟩
  apply createBox_err 0 0 0 1 1 0 (by norm_num) (by norm_num) (by norm_num)
  exact Or.inr (Or.inl (by norm_num [zeroEps]))

/-- C6 (amended): CreateQuad inspects only its first implied triangle:
it fails with the DegenerateGeometry error exactly when the cross product
of the edges of v1-v2-v3 is componentwise below 1e-10, and on success
emits exactly the two fan triangles v1-v2-v3 and v1-v3-v4 sharing the
normal computed from the first three vertices; the second triangle is
never checked, so a degenerate second triangle can be stored. -/
theorem createQuad_first_triangle_only (v1 v2 v3 v4 : Point3D) :
    (isZeroVector (vectorCross (vectorSubtract v2 v1) (vectorSubtract v3 v1)) →
      CreateQuad v1 v2 v3 v4 =
        .error (Wrap (ErrNew .ValidationError "degenerate triangle" none)
          "failed to calculate quad normal")) ∧
    (¬ isZeroVector (vectorCross (vectorSubtract v2 v1) (vectorSubtract v3 v1)) →
      CreateQuad v1 v2 v3 v4 =
        .ok [⟨normalizeVector
                (vectorCross (vectorSubtract v2 v1) (vectorSubtract v3 v1)),
              v1, v2, v3⟩,
             ⟨normalizeVector
                (vectorCross (vectorSubtract v2 v1) (vectorSubtract v3 v1)),
              v1, v3, v4⟩]) := by
  constructor
  · intro h
    exact CreateQuad_err v1 v2 v3 v4 _ rfl h
  · intro h
    exact CreateQuad_ok v1 v2 v3 v4 _ rfl h

/-- Witness for C6: a unit square quad in the XY plane succeeds with the
two fan triangles and shared normal (0,0,1); a fully collapsed quad
fails. -/
theorem createQuad_first_triangle_only_witness :
    CreateQuad ⟨0, 0, 0⟩ ⟨1, 0, 0⟩ ⟨1, 1, 0⟩ ⟨0, 1, 0⟩ =
      .ok [⟨normalizeVector
              (vectorCross (vectorSubtract ⟨1, 0, 0⟩ ⟨0, 0, 0⟩)
                (vectorSubtract ⟨1, 1, 0⟩ ⟨0, 0, 0⟩)),
            ⟨0, 0, 0⟩, ⟨1, 0, 0⟩, ⟨1, 1, 0⟩⟩,
           ⟨normalizeVector
              (vectorCross (vectorSubtract ⟨1, 0, 0⟩ ⟨0, 0, 0⟩)
                (vectorSubtract ⟨1, 1, 0⟩ ⟨0, 0, 0⟩)),
            ⟨0, 0, 0⟩, ⟨1, 1, 0⟩, ⟨0, 1, 0⟩⟩] ∧
    CreateQuad ⟨0, 0, 0⟩ ⟨0, 0, 0⟩ ⟨0, 0, 0⟩ ⟨0, 0, 0⟩ =
      .error (Wrap (ErrNew .ValidationError "degenerate triangle" none)
        "failed to calculate quad normal") := by
  constructor
  · apply (createQuad_first_triangle_only ⟨0, 0, 0⟩ ⟨1, 0, 0⟩ ⟨1, 1, 0⟩ ⟨0, 1, 0⟩).2
    have hc : vectorCross (vectorSubtract ⟨1, 0, 0⟩ ⟨0, 0, 0⟩)
        (vectorSubtract ⟨1, 1, 0⟩ ⟨0, 0, 0⟩) = (⟨0, 0, 1⟩ : Point3D) := by
      simp only [vectorSubtract, vectorCross, Point3D.mk.injEq]
      refine ⟨by ring, by ring, by ring⟩
    rw [hc, isZero_axisZ 1 (by norm_num)]
    norm_num [zeroEps]
  · apply (createQuad_first_triangle_only ⟨0, 0, 0⟩ ⟨0, 0, 0⟩ ⟨0, 0, 0⟩ ⟨0, 0, 0⟩).1
    have hc : vectorCross (vectorSubtract ⟨0, 0, 0⟩ ⟨0, 0, 0⟩)
        (vectorSubtract ⟨0, 0, 0⟩ ⟨0, 0, 0⟩) = (⟨0, 0, 0⟩ : Point3D) := by
      simp only [vectorSubtract, vectorCross, Point3D.mk.injEq]
      refine ⟨by ring, by ring, by ring⟩
    rw [hc]
    refine ⟨?_, ?_, ?_⟩ <;> simp [zeroEps] <;> norm_num

/-- Counterexample to C6 as stated: with v3 = v4 the second implied
triangle v1-v3-v4 has an exactly zero edge cross product (zero area), yet
CreateQuad succeeds and stores that degenerate triangle, because only the
first triangle is checked. -/
theorem createQuad_stores_degenerate_second :
    CreateQuad ⟨0, 0, 0⟩ ⟨1, 0, 0⟩ ⟨0, 1, 0⟩ ⟨0, 1, 0⟩ =
      .ok [⟨⟨0, 0, 1⟩, ⟨0, 0, 0⟩, ⟨1, 0, 0⟩, ⟨0, 1, 0⟩⟩,
           ⟨⟨0, 0, 1⟩, ⟨0, 0, 0⟩, ⟨0, 1, 0⟩, ⟨0, 1, 0⟩⟩] ∧
    vectorCross (vectorSubtract ⟨0, 1, 0⟩ ⟨0, 0, 0⟩)
        (vectorSubtract ⟨0, 1, 0⟩ ⟨0, 0, 0⟩) = (⟨0, 0, 0⟩ : Point3D) ∧
    isZeroVector (⟨0, 0, 0⟩ : Point3D) := by
  have hc : vectorCross (vectorSubtract ⟨1, 0, 0⟩ ⟨0, 0, 0⟩)
      (vectorSubtract ⟨0, 1, 0⟩ ⟨0, 0, 0⟩) = (⟨0, 0, 1⟩ : Point3D) := by
    simp only [vectorSubtract, vectorCross, Point3D.mk.injEq]
    refine ⟨by ring, by ring, by ring⟩
  have hnz : ¬ isZeroVector (⟨0, 0, 1⟩ : Point3D) := by
    rw [isZero_axisZ 1 (by norm_num)]
    norm_num [zeroEps]
  refine ⟨?_, ?_, ?_⟩
  · rw [CreateQuad_ok _ _ _ _ _ hc hnz, normalize_axisZ 1 (by norm_num)]
  · simp only [vectorSubtract, vectorCross, Point3D.mk.injEq]
    refine ⟨by ring, by ring, by ring⟩
  · refine ⟨?_, ?_, ?_⟩ <;> simp [zeroEps] <;> norm_num

/-- C5 (amended): calculateNormal fails exactly when the cross product of
the two edge vectors is componentwise below 1e-10 (the code tests each
component, not the magnitude, and in the real-number model the point
validity check never fails); otherwise it returns that cross product
normalized, whose magnitude is exactly 1; and on (0,0,0), (1,0,0),
(0,1,0) it returns (0,0,1). -/
theorem calculateNormal_spec_amended (p1 p2 p3 : Point3D) :
    (isZeroVector (vectorCross (vectorSubtract p2 p1) (vectorSubtract p3 p1)) →
      calculateNormal p1 p2 p3 =
        .error (ErrNew .ValidationError "degenerate triangle" none)) ∧
    (¬ isZeroVector (vectorCross (vectorSubtract p2 p1) (vectorSubtract p3 p1)) →
      calculateNormal p1 p2 p3 =
        .ok (normalizeVector
          (vectorCross (vectorSubtract p2 p1) (vectorSubtract p3 p1))) ∧
      sumSq (normalizeVector
        (vectorCross (vectorSubtract p2 p1) (vectorSubtract p3 p1))) = 1) ∧
    calculateNormal ⟨0, 0, 0⟩ ⟨1, 0, 0⟩ ⟨0, 1, 0⟩ = .ok ⟨0, 0, 1⟩ := by
  refine ⟨?_, ?_, ?_⟩
  · intro h
    exact calculateNormal_err p1 p2 p3 _ rfl h
  · intro h
    exact ⟨calculateNormal_ok p1 p2 p3 _ rfl h,
      sumSq_normalize _ (sumSq_pos_of_not_isZero _ h)⟩
  · have hc : vectorCross (vectorSubtract ⟨1, 0, 0⟩ ⟨0, 0, 0⟩)
        (vectorSubtract ⟨0, 1, 0⟩ ⟨0, 0, 0⟩) = (⟨0, 0, 1⟩ : Point3D) := by
      simp only [vectorSubtract, vectorCross, Point3D.mk.injEq]
      refine ⟨by ring, by ring, by ring⟩
    have hnz : ¬ isZeroVector (⟨0, 0, 1⟩ : Point3D) := by
      rw [isZero_axisZ 1 (by norm_num)]
      norm_num [zeroEps]
    rw [calculateNormal_ok _ _ _ _ hc hnz, normalize_axisZ 1 (by norm_num)]

/-- Witness for C5: the standard right triangle yields the ok branch and
the coincident triple yields the degenerate branch. -/
theorem calculateNormal_spec_amended_witness :
    calculateNormal ⟨0, 0, 0⟩ ⟨1, 0, 0⟩ ⟨0, 1, 0⟩ = .ok ⟨0, 0, 1⟩ ∧
    calculateNormal ⟨2, 2, 2⟩ ⟨2, 2, 2⟩ ⟨2, 2, 2⟩ =
      .error (ErrNew .ValidationError "degenerate triangle" none) := by
  refine ⟨(calculateNormal_spec_amended ⟨0, 0, 0⟩ ⟨1, 0, 0⟩ ⟨0, 1, 0⟩).2.2, ?_⟩
  apply (calculateNormal_spec_amended ⟨2, 2, 2⟩ ⟨2, 2, 2⟩ ⟨2, 2, 2⟩).1
  have hc : vectorCross (vectorSubtract ⟨2, 2, 2⟩ ⟨2, 2, 2⟩)
      (vectorSubtract ⟨2, 2, 2⟩ ⟨2, 2, 2⟩) = (⟨0, 0, 0⟩ : Point3D) := by
    simp only [vectorSubtract, vectorCross, Point3D.mk.injEq]
    refine ⟨by ring, by ring, by ring⟩
  rw [hc]
  refine ⟨?_, ?_, ?_⟩ <;> simp [zeroEps] <;> norm_num

/-- Counterexample to C5 as stated: at p1 = (0,0,0), p2 = (1,0,0),
p3 = (0, 9e-11, 9e-11) the cross product is (0, -9e-11, 9e-11), whose
magnitude sqrt(1.62e-20) is at least 1e-10, yet calculateNormal fails:
the code tests each component against 1e-10 separately rather than the
magnitude the claim describes (and no input point is invalid). -/
theorem calculateNormal_componentwise_cex :
    calculateNormal ⟨0, 0, 0⟩ ⟨1, 0, 0⟩ ⟨0, 9e-11, 9e-11⟩ =
      .error (ErrNew .ValidationError "degenerate triangle" none) ∧
    zeroEps ≤ crossMagnitude ⟨0, 0, 0⟩ ⟨1, 0, 0⟩ ⟨0, 9e-11, 9e-11⟩ ∧
    pointIsValid ⟨0, 0, 0⟩ = true ∧ pointIsValid ⟨1, 0, 0⟩ = true ∧
    pointIsValid ⟨0, 9e-11, 9e-11⟩ = true := by
  have hc : vectorCross (vectorSubtract ⟨1, 0, 0⟩ ⟨0, 0, 0⟩)
      (vectorSubtract ⟨0, 9e-11, 9e-11⟩ ⟨0, 0, 0⟩) =
      (⟨0, -9e-11, 9e-11⟩ : Point3D) := by
    simp only [vectorSubtract, vectorCross, Point3D.mk.injEq]
    refine ⟨by ring, by ring, by ring⟩
  refine ⟨?_, ?_, rfl, rfl, rfl⟩
  · apply calculateNormal_err _ _ _ _ hc
    refine ⟨?_, ?_, ?_⟩ <;> simp [abs_lt, zeroEps] <;> norm_num
  · unfold crossMagnitude
    rw [hc]
    have hs : sumSq (⟨0, -9e-11, 9e-11⟩ : Point3D) = 1.62e-20 := by
      norm_num [sumSq]
    rw [hs]
    rw [show zeroEps = Real.sqrt (1e-20) by
      rw [show (1e-20 : ℝ) = 1e-10 ^ 2 by norm_num, Real.sqrt_sq (by norm_num)]
      norm_num [zeroEps]]
    apply Real.sqrt_le_sqrt
    norm_num

theorem NormalizeContribution_nonneg (c : ℕ) (m : ℤ) :
    0 ≤ NormalizeContribution c m := by
  unfold NormalizeContribution
  split_ifs
  · exact le_refl 0
  · norm_num [MinHeight, CellSize]
  · have h1 : 0 ≤ Real.sqrt c / Real.sqrt (m : ℝ) :=
      div_nonneg (Real.sqrt_nonneg _) (Real.sqrt_nonneg _)
    have h2 : (0 : ℝ) ≤ MaxHeight - MinHeight := by
      norm_num [MaxHeight, MinHeight, CellSize]
    have h3 : (0 : ℝ) ≤ MinHeight := by norm_num [MinHeight, CellSize]
    linarith [mul_nonneg h1 h2]

/-- C2: the column height normalization returns 0 at count 0; returns
MinHeight for a positive count when maxCount is not positive; otherwise
follows the square-root formula exactly, so count = maxCount gives
exactly MaxHeight; and for a fixed maxCount it is monotonically
non-decreasing in the count (counts are natural numbers, per the data
model invariant that contribution counts are non-negative). -/
theorem normalize_contribution_spec (c c1 c2 n : ℕ) (m : ℤ) :
    NormalizeContribution 0 m = 0 ∧
    (0 < c → m ≤ 0 → NormalizeContribution c m = MinHeight) ∧
    (0 < c → 0 < m → NormalizeContribution c m =
      MinHeight + (Real.sqrt c / Real.sqrt (m : ℝ)) * (MaxHeight - MinHeight)) ∧
    (0 < n → NormalizeContribution n (n : ℤ) = MaxHeight) ∧
    (c1 ≤ c2 → NormalizeContribution c1 m ≤ NormalizeContribution c2 m) := by
  refine ⟨?_, ?_, ?_, ?_, ?_⟩
  · unfold NormalizeContribution
    simp
  · intro hc hm
    unfold NormalizeContribution
    rw [if_neg hc.ne', if_pos hm]
  · intro hc hm
    unfold NormalizeContribution
    rw [if_neg hc.ne', if_neg (not_le.mpr hm)]
  · intro hn
    unfold NormalizeContribution
    rw [if_neg hn.ne']
    rw [if_neg (by exact_mod_cast not_le.mpr hn)]
    have hs : Real.sqrt ((n : ℤ) : ℝ) = Real.sqrt (n : ℝ) := by push_cast; rfl
    have hpos : 0 < Real.sqrt (n : ℝ) :=
      Real.sqrt_pos.mpr (by exact_mod_cast hn)
    rw [hs, div_self hpos.ne']
    norm_num [MinHeight, MaxHeight, CellSize]
  · intro h12
    rcases Nat.eq_zero_or_pos c1 with h1 | h1
    · subst h1
      have h0 : NormalizeContribution 0 m = 0 := by unfold NormalizeContribution; simp
      rw [h0]
      exact NormalizeContribution_nonneg c2 m
    · have h2 : 0 < c2 := lt_of_lt_of_le h1 h12
      unfold NormalizeContribution
      rw [if_neg h1.ne', if_neg h2.ne']
      by_cases hm : m ≤ 0
      · rw [if_pos hm, if_pos hm]
      · rw [if_neg hm, if_neg hm]
        have hmpos : (0 : ℝ) < Real.sqrt (m : ℝ) := by
          apply Real.sqrt_pos.mpr
          exact_mod_cast not_le.mp hm
        have hsr : Real.sqrt (c1 : ℝ) ≤ Real.sqrt (c2 : ℝ) :=
          Real.sqrt_le_sqrt (by exact_mod_cast h12)
        have hdiv : Real.sqrt (c1 : ℝ) / Real.sqrt (m : ℝ) ≤
            Real.sqrt (c2 : ℝ) / Real.sqrt (m : ℝ) :=
          (div_le_div_iff_of_pos_right hmpos).mpr hsr
        have hR : (0 : ℝ) ≤ MaxHeight - MinHeight := by
          norm_num [MaxHeight, MinHeight, CellSize]
        have := mul_le_mul_of_nonneg_right hdiv hR
        linarith

/-- Witness for C2: concrete counts exercising every clause. -/
theorem normalize_contribution_spec_witness :
    NormalizeContribution 0 3 = 0 ∧
    NormalizeContribution 5 (-2) = MinHeight ∧
    NormalizeContribution 5 3 =
      MinHeight + (Real.sqrt 5 / Real.sqrt ((3 : ℤ) : ℝ)) * (MaxHeight - MinHeight) ∧
    NormalizeContribution 4 4 = MaxHeight ∧
    NormalizeContribution 2 3 ≤ NormalizeContribution 8 3 := by
  refine ⟨(normalize_contribution_spec 5 2 8 4 3).1,
    (normalize_contribution_spec 5 2 8 4 (-2)).2.1 (by norm_num) (by norm_num),
    ?_,
    (normalize_contribution_spec 5 2 8 4 3).2.2.2.1 (by norm_num),
    (normalize_contribution_spec 5 2 8 4 3).2.2.2.2 (by norm_num)⟩
  have h := (normalize_contribution_spec 5 2 8 4 3).2.2.1 (by norm_num) (by norm_num)
  rw [h]
  norm_num

/-- C8: the assembled triangle sequence depends on the map iteration
order.  Both orders below are permutations of the four producer channels,
as Go map iteration may yield either; with the same producer outputs they
give different triangle sequences, so the concatenation handed to the
serializer is not identical across runs. -/
theorem assembly_order_dependent :
    stdOrder.Perm swappedOrder ∧
    assembleResults stdOrder sampleResults =
      .ok [sampleBaseTriangle, sampleColumnTriangle] ∧
    assembleResults swappedOrder sampleResults =
      .ok [sampleColumnTriangle, sampleBaseTriangle] ∧
    sampleBaseTriangle ≠ sampleColumnTriangle ∧
    ([sampleBaseTriangle, sampleColumnTriangle] : List Triangle) ≠
      [sampleColumnTriangle, sampleBaseTriangle] := by
  have hne : sampleBaseTriangle ≠ sampleColumnTriangle := by
    intro h
    have hx : sampleBaseTriangle.V2.X = sampleColumnTriangle.V2.X := by rw [h]
    norm_num [sampleBaseTriangle, sampleColumnTriangle] at hx
  refine ⟨by decide, rfl, rfl, hne, ?_⟩
  intro h
  exact hne (List.head_eq_of_cons_eq h)

theorem absorbToWarning_err_none (r : Except SkylineError (List Triangle)) :
    (absorbToWarning r).err = none := by
  cases r <;> rfl

theorem generateBase_err_none (w d : ℝ) : (generateBase w d).err = none := by
  unfold generateBase
  exact absorbToWarning_err_none _

theorem assembleResults_ok (order : List Component)
    (res : Component → geometryResult) (h : ∀ c, (res c).err = none) :
    ∃ tris, assembleResults order res = .ok tris := by
  induction order with
  | nil => exact ⟨[], rfl⟩
  | cons c rest ih =>
    obtain ⟨tris, htris⟩ := ih
    refine ⟨(res c).triangles ++ tris, ?_⟩
    unfold assembleResults
    rw [h c, htris]

/-- C1 (amended): every producer, required (base, columns) or optional
(text, emblem), absorbs a fatal geometry error at its own boundary,
logging a warning and contributing an empty (for columns: possibly shortened)
triangle list with no error on its channel; consequently the assembler
never aborts on a producer geometry failure, and a run with a non-empty
year list always reaches file output.  A producer error would surface
only if writing the warning log itself failed, and the model logger
always succeeds. -/
theorem producer_errors_absorbed (order : List Component) (g : Grid)
    (rest contribs : List Grid) (w d : ℝ) (maxContrib : ℤ)
    (textR imageR : Except SkylineError (List Triangle)) :
    (∀ e, CreateCuboidBase w d = .error e → generateBase w d = ⟨[], none⟩) ∧
    (∀ e, textR = .error e → absorbToWarning textR = ⟨[], none⟩) ∧
    (∀ e, imageR = .error e → absorbToWarning imageR = ⟨[], none⟩) ∧
    (generateBase w d).err = none ∧
    (generateColumnsForYearRange contribs maxContrib).err = none ∧
    (∃ tris,
      generateModelGeometry order (g :: rest) w d maxContrib textR imageR =
        .ok tris) := by
  refine ⟨?_, ?_, ?_, generateBase_err_none w d, rfl, ?_⟩
  · intro e he
    unfold generateBase
    rw [he]
    rfl
  · intro e he
    rw [he]
    rfl
  · intro e he
    rw [he]
    rfl
  · apply assembleResults_ok
    intro c
    cases c
    · exact generateBase_err_none w d
    · rfl
    · exact absorbToWarning_err_none _
    · exact absorbToWarning_err_none _

/-- Witness for C1: concrete instantiation, with the base producer
genuinely failing (negative width) and the run still reaching output. -/
theorem producer_errors_absorbed_witness :
    (generateBase (-1) 1).err = none ∧
    (generateColumnsForYearRange [zeroYearGrid] 0).err = none ∧
    ∃ tris,
      generateModelGeometry stdOrder [zeroYearGrid] (-1) 1 0 (.ok []) (.ok []) =
        .ok tris := by
  have h := producer_errors_absorbed stdOrder zeroYearGrid [] [zeroYearGrid]
    (-1) 1 0 (.ok []) (.ok [])
  exact ⟨h.2.2.2.1, h.2.2.2.2.1, h.2.2.2.2.2⟩

/-- Counterexample to C1 as stated: the base slab is a required producer
and its geometry generation fails outright on these dimensions, yet the
error is absorbed (empty triangles, no channel error) and the whole run
still succeeds, returning a triangle list; nothing is surfaced to the
caller. -/
theorem base_error_does_not_abort_run :
    CreateCuboidBase (-1) 1 =
      .error (ErrNew .ValidationError "negative dimensions not allowed" none) ∧
    generateBase (-1) 1 = ⟨[], none⟩ ∧
    generateModelGeometry stdOrder [zeroYearGrid] (-1) 1 0 (.ok []) (.ok []) =
      .ok [] := by
  have hbase : CreateCuboidBase (-1) 1 =
      .error (ErrNew .ValidationError "negative dimensions not allowed" none) := by
    unfold CreateCuboidBase createBox
    rw [if_pos (Or.inl (by norm_num))]
  have hgB : generateBase (-1) 1 = ⟨[], none⟩ := by
    unfold generateBase
    rw [hbase]
    rfl
  have hcols : generateColumnsForYearRange [zeroYearGrid] 0 =
      ⟨[], none⟩ := rfl
  refine ⟨hbase, hgB, ?_⟩
  show assembleResults stdOrder
    (producerResults [zeroYearGrid] (-1) 1 0 (.ok []) (.ok [])) = .ok []
  simp [stdOrder, assembleResults, producerResults, hgB, hcols,
    absorbToWarning]

/-- C10: GenerateSTLRange validates only the first year: on an empty year
list the contributions[0] access panics before any validation, and with a
valid first year, output path and username the run proceeds past
validation into geometry generation for every tail of later years,
whatever they contain (empty, nil or oversized years included). -/
theorem validation_first_year_only (order : List Component) (c0 : Grid)
    (rest : List Grid) (path user : String) (sy ey : ℤ)
    (tR iR : Except SkylineError (List Triangle)) :
    GenerateSTLRange order [] path user sy ey tR iR = .panicked ∧
    (validateInput c0 path user = none →
      GenerateSTLRange order (c0 :: rest) path user sy ey tR iR =
        generatePostValidation order (c0 :: rest) sy ey tR iR) := by
  refine ⟨rfl, ?_⟩
  intro hv
  unfold GenerateSTLRange
  dsimp only
  rw [hv]

/-- Witness for C10: a valid one-week first year followed by an empty
year and an oversized year reaches the post-validation pipeline; the
empty input panics. -/
theorem validation_first_year_only_witness :
    validateInput zeroYearGrid "out.stl" "octocat" = none ∧
    GenerateSTLRange stdOrder (zeroYearGrid :: [[], oversizedYearGrid])
        "out.stl" "octocat" 2023 2023 (.ok []) (.ok []) =
      generatePostValidation stdOrder (zeroYearGrid :: [[], oversizedYearGrid])
        2023 2023 (.ok []) (.ok []) ∧
    GenerateSTLRange stdOrder [] "out.stl" "octocat" 2023 2023
      (.ok []) (.ok []) = .panicked := by
  have h := validation_first_year_only stdOrder zeroYearGrid
    [[], oversizedYearGrid] "out.stl" "octocat" 2023 2023 (.ok []) (.ok [])
  exact ⟨rfl, h.2 rfl, h.1⟩

/-- C3 (amended): an input whose first year is empty is rejected with the
InvalidInput validation error before any geometry; but an input with zero
years is not rejected - the contributions[0] access panics before
validation; and the number of years is never checked against the maximum
grid size - only the first year's week count is, so any count of years
passes validation provided the first year does. -/
theorem input_validation_amended (order : List Component) (c0 : Grid)
    (rest : List Grid) (path user : String) (sy ey : ℤ)
    (tR iR : Except SkylineError (List Triangle)) :
    GenerateSTLRange order [] path user sy ey tR iR = .panicked ∧
    GenerateSTLRange order ([] :: rest) path user sy ey tR iR =
      .failed (Wrap
        (ErrNew .ValidationError "contributions data cannot be empty" none)
        "input validation failed") ∧
    (GridSize < c0.length →
      GenerateSTLRange order (c0 :: rest) path user sy ey tR iR =
        .failed (Wrap
          (ErrNew .ValidationError
            "contributions data exceeds maximum grid size" none)
          "input validation failed")) ∧
    (validateInput c0 path user = none →
      GenerateSTLRange order (c0 :: rest) path user sy ey tR iR =
        generatePostValidation order (c0 :: rest) sy ey tR iR) := by
  refine ⟨rfl, rfl, ?_, ?_⟩
  · intro hbig
    unfold GenerateSTLRange validateInput
    dsimp only
    rw [if_neg (by omega : ¬(c0.length = 0)), if_pos hbig]
  · intro hv
    unfold GenerateSTLRange
    dsimp only
    rw [hv]

/-- Witness for C3 (amended): concrete empty-first-year rejection,
oversized-first-year rejection, and a valid first year proceeding. -/
theorem input_validation_amended_witness :
    GenerateSTLRange stdOrder [[]] "out.stl" "octocat" 2023 2023
      (.ok []) (.ok []) =
      .failed (Wrap
        (ErrNew .ValidationError "contributions data cannot be empty" none)
        "input validation failed") ∧
    GenerateSTLRange stdOrder [oversizedYearGrid] "out.stl" "octocat"
      2023 2023 (.ok []) (.ok []) =
      .failed (Wrap
        (ErrNew .ValidationError
          "contributions data exceeds maximum grid size" none)
        "input validation failed") ∧
    GenerateSTLRange stdOrder [] "out.stl" "octocat" 2023 2023
      (.ok []) (.ok []) = .panicked := by
  have h := input_validation_amended stdOrder oversizedYearGrid []
    "out.stl" "octocat" 2023 2023 (.ok []) (.ok [])
  refine ⟨h.2.1, h.2.2.1 (by simp [oversizedYearGrid, GridSize]), h.1⟩

theorem cuboidBase_54_eval :
    generateBase 137.5 950 =
      ⟨boxTriangles 0 0 (-BaseHeight) 137.5 950 BaseHeight, none⟩ := by
  unfold generateBase CreateCuboidBase
  rw [createBox_ok 0 0 (-BaseHeight) 137.5 950 BaseHeight (by norm_num)
    (by norm_num) (by norm_num [BaseHeight]) (by norm_num [zeroEps])
    (by norm_num [BaseHeight, zeroEps]) (by norm_num [BaseHeight, zeroEps])]
  rfl


theorem CreateContributionGeometry_empty (j : ℕ) (m : ℤ) :
    CreateContributionGeometry ([] : Grid) j m = .ok [] := rfl

theorem CreateContributionGeometry_zeroYear (j : ℕ) (m : ℤ) :
    CreateContributionGeometry zeroYearGrid j m = .ok [] := rfl

theorem columns_all_empty (m : ℤ) (L : List Grid)
    (h : ∀ g ∈ L, ∀ j, CreateContributionGeometry g j m = .ok []) :
    generateColumnsForYearRange L m = ⟨[], none⟩ := by
  unfold generateColumnsForYearRange
  have hfold : ∀ (ps : List (ℕ × Grid)),
      (∀ p ∈ ps, CreateContributionGeometry p.2 p.1 m = .ok []) →
      ∀ acc : List Triangle,
        ps.foldl (fun acc p =>
          match CreateContributionGeometry p.2 p.1 m with
          | .error _ => acc
          | .ok ts => acc ++ ts) acc = acc := by
    intro ps
    induction ps with
    | nil => intro _ acc; rfl
    | cons p rest ih =>
      intro hps acc
      have hp := hps p (List.mem_cons_self p rest)
      rw [List.foldl_cons, hp]
      dsimp only
      rw [List.append_nil]
      exact ih (fun q hq => hps q (List.mem_cons_of_mem p hq)) acc
  rw [hfold (L.reverse.enum) ?_ []]
  intro p hp
  have hmem : p.2 ∈ L.reverse := by
    have := List.mem_enum_iff_getElem?.mp hp
    exact List.getElem?_mem this
  exact h p.2 (List.mem_reverse.mp hmem) p.1

theorem columns_54_eval (m : ℤ) :
    generateColumnsForYearRange
      (zeroYearGrid :: List.replicate 53 ([] : Grid)) m = ⟨[], none⟩ := by
  apply columns_all_empty
  intro g hg j
  rcases List.mem_cons.mp hg with hz | hrep
  · rw [hz]
    exact CreateContributionGeometry_zeroYear j m
  · rw [List.eq_of_mem_replicate hrep]
    exact CreateContributionGeometry_empty j m

theorem dims_54_eval :
    calculateDimensions
      (zeroYearGrid :: List.replicate 53 ([] : Grid)).length =
      .ok ⟨137.5, 950, "assets/invertocat.png"⟩ := by
  show calculateDimensions 54 = _
  unfold calculateDimensions
  rw [if_neg (by norm_num : ¬(54 = 0))]
  dsimp only
  rw [if_neg (by norm_num : ¬(54 ≤ 1))]
  rw [if_neg (by norm_num [CalculateMultiYearDimensions, GridSize, CellSize])]
  unfold CalculateMultiYearDimensions
  norm_num [GridSize, CellSize]

/-- Counterexample to C3 as stated: an input with zero years is not
rejected with InvalidInput - the code panics on the contributions[0]
index before validation; and an input with 54 years (more than the
53-cell maximum grid size) is not rejected either - validation only
bounds the first year's week count, so the run completes and writes the
file (here containing just the base slab). -/
theorem empty_input_panics_cex :
    GenerateSTLRange stdOrder [] "out.stl" "octocat" 2023 2023
      (.ok []) (.ok []) = .panicked ∧
    GridSize < (zeroYearGrid :: List.replicate 53 ([] : Grid)).length ∧
    GenerateSTLRange stdOrder (zeroYearGrid :: List.replicate 53 ([] : Grid))
        "out.stl" "octocat" 2023 2023 (.ok []) (.ok []) =
      .wrote (boxTriangles 0 0 (-BaseHeight) 137.5 950 BaseHeight) := by
  refine ⟨rfl, by simp [GridSize], ?_⟩
  show generatePostValidation stdOrder
    (zeroYearGrid :: List.replicate 53 ([] : Grid)) 2023 2023
    (.ok []) (.ok []) = _
  unfold generatePostValidation
  rw [dims_54_eval]
  dsimp only
  have hmodel : generateModelGeometry stdOrder
      (zeroYearGrid :: List.replicate 53 ([] : Grid)) 137.5 950
      ((findMaxContributionsAcrossYears
        (zeroYearGrid :: List.replicate 53 ([] : Grid)) : ℕ) : ℤ)
      (.ok []) (.ok []) =
      .ok (boxTriangles 0 0 (-BaseHeight) 137.5 950 BaseHeight) := by
    show assembleResults stdOrder _ = _
    simp only [stdOrder, assembleResults, producerResults, cuboidBase_54_eval,
      columns_54_eval, absorbToWarning, List.append_nil]
  rw [hmodel]

theorem triangleRecord_len (enc : ℝ → List ℕ) (henc : ∀ r, (enc r).length = 4)
    (t : Triangle) : (triangleRecord enc t).length = 50 := by
  simp [triangleRecord, henc]

theorem records_flatten_len (enc : ℝ → List ℕ)
    (henc : ∀ r, (enc r).length = 4) (tris : List Triangle) :
    ((tris.map (triangleRecord enc)).flatten).length = 50 * tris.length := by
  induction tris with
  | nil => rfl
  | cons t rest ih =>
    simp only [List.map_cons, List.flatten_cons, List.length_append, ih,
      triangleRecord_len enc henc, List.length_cons]
    ring

/-- C9: serializing N triangles yields exactly 84 + 50N bytes: an 80-byte
zero header, then the 4-byte little-endian count denoting exactly N (for
N below 2^32), then one 50-byte record per triangle in order, each laid
out as the 12 encoded 4-byte components of the source triangle (normal
then vertices, converted to single precision by enc only at this
boundary) followed by the 2-byte attribute field written as zero.  enc is
any 4-bytes-per-value encoding. -/
theorem writeSTLBinary_layout (enc : ℝ → List ℕ) (tris : List Triangle)
    (henc : ∀ r, (enc r).length = 4) (hn : tris.length < 2 ^ 32) :
    (WriteSTLBinary enc tris).length = 84 + 50 * tris.length ∧
    (WriteSTLBinary enc tris).take 80 = List.replicate 80 0 ∧
    ((WriteSTLBinary enc tris).drop 80).take 4 = uint32LE tris.length ∧
    leValue (uint32LE tris.length) = tris.length ∧
    (WriteSTLBinary enc tris).drop 84 = (tris.map (triangleRecord enc)).flatten ∧
    ∀ t ∈ tris,
      (triangleRecord enc t).length = 50 ∧
      (triangleRecord enc t).drop 48 = [0, 0] ∧
      triangleRecord enc t =
        enc t.Normal.X ++ enc t.Normal.Y ++ enc t.Normal.Z ++
        enc t.V1.X ++ enc t.V1.Y ++ enc t.V1.Z ++
        enc t.V2.X ++ enc t.V2.Y ++ enc t.V2.Z ++
        enc t.V3.X ++ enc t.V3.Y ++ enc t.V3.Z ++ [0, 0] := by
  have h4 : ∀ (v : ℝ) (R : List ℕ) (k : ℕ),
      (enc v ++ R).drop (4 + k) = R.drop k := by
    intro v R k
    rw [show 4 + k = (enc v).length + k by rw [henc], List.drop_append]
  refine ⟨?_, ?_, ?_, ?_, ?_, ?_⟩
  · simp [WriteSTLBinary, uint32LE, records_flatten_len enc henc tris]
    omega
  · unfold WriteSTLBinary
    rw [List.append_assoc, List.take_left' (by simp)]
  · unfold WriteSTLBinary
    rw [List.append_assoc, List.drop_left' (by simp),
      List.take_left' (by simp [uint32LE])]
  · simp [uint32LE, leValue]
    omega
  · unfold WriteSTLBinary
    rw [List.append_assoc,
      show List.drop 84 (List.replicate 80 (0 : ℕ) ++
          (uint32LE tris.length ++ (tris.map (triangleRecord enc)).flatten)) =
        List.drop ((List.replicate 80 (0 : ℕ)).length + 4) (List.replicate 80 (0 : ℕ) ++
          (uint32LE tris.length ++ (tris.map (triangleRecord enc)).flatten)) by simp,
      List.drop_append,
      show List.drop 4 (uint32LE tris.length ++ (tris.map (triangleRecord enc)).flatten) =
        List.drop ((uint32LE tris.length).length + 0)
          (uint32LE tris.length ++ (tris.map (triangleRecord enc)).flatten) by
        simp [uint32LE],
      List.drop_append, List.drop_zero]
  · intro t _
    refine ⟨triangleRecord_len enc henc t, ?_, rfl⟩
    unfold triangleRecord
    simp only [List.append_assoc]
    rw [show (48 : ℕ) = 4 + 44 from rfl, h4,
      show (44 : ℕ) = 4 + 40 from rfl, h4,
      show (40 : ℕ) = 4 + 36 from rfl, h4,
      show (36 : ℕ) = 4 + 32 from rfl, h4,
      show (32 : ℕ) = 4 + 28 from rfl, h4,
      show (28 : ℕ) = 4 + 24 from rfl, h4,
      show (24 : ℕ) = 4 + 20 from rfl, h4,
      show (20 : ℕ) = 4 + 16 from rfl, h4,
      show (16 : ℕ) = 4 + 12 from rfl, h4,
      show (12 : ℕ) = 4 + 8 from rfl, h4,
      show (8 : ℕ) = 4 + 4 from rfl, h4,
      show (4 : ℕ) = 4 + 0 from rfl, h4, List.drop_zero]

/-- Witness for C9: the constant 4-byte encoder and a one-triangle mesh. -/
theorem writeSTLBinary_layout_witness :
    (WriteSTLBinary (fun _ => [0, 0, 0, 0]) [sampleBaseTriangle]).length =
      84 + 50 * [sampleBaseTriangle].length ∧
    (WriteSTLBinary (fun _ => [0, 0, 0, 0]) [sampleBaseTriangle]).take 80 =
      List.replicate 80 0 ∧
    ((WriteSTLBinary (fun _ => [0, 0, 0, 0]) [sampleBaseTriangle]).drop 80).take 4 =
      uint32LE [sampleBaseTriangle].length ∧
    leValue (uint32LE [sampleBaseTriangle].length) = [sampleBaseTriangle].length ∧
    (WriteSTLBinary (fun _ => [0, 0, 0, 0]) [sampleBaseTriangle]).drop 84 =
      ([sampleBaseTriangle].map (triangleRecord (fun _ => [0, 0, 0, 0]))).flatten ∧
    ∀ t ∈ [sampleBaseTriangle],
      (triangleRecord (fun _ => [0, 0, 0, 0]) t).length = 50 ∧
      (triangleRecord (fun _ => [0, 0, 0, 0]) t).drop 48 = [0, 0] ∧
      triangleRecord (fun _ => [0, 0, 0, 0]) t =
        (fun _ => [0, 0, 0, 0]) t.Normal.X ++ (fun _ => [0, 0, 0, 0]) t.Normal.Y ++
        (fun _ => [0, 0, 0, 0]) t.Normal.Z ++
        (fun _ => [0, 0, 0, 0]) t.V1.X ++ (fun _ => [0, 0, 0, 0]) t.V1.Y ++
        (fun _ => [0, 0, 0, 0]) t.V1.Z ++
        (fun _ => [0, 0, 0, 0]) t.V2.X ++ (fun _ => [0, 0, 0, 0]) t.V2.Y ++
        (fun _ => [0, 0, 0, 0]) t.V2.Z ++
        (fun _ => [0, 0, 0, 0]) t.V3.X ++ (fun _ => [0, 0, 0, 0]) t.V3.Y ++
        (fun _ => [0, 0, 0, 0]) t.V3.Z ++ [0, 0] :=
  writeSTLBinary_layout (fun _ => [0, 0, 0, 0]) [sampleBaseTriangle]
    (fun _ => rfl) (by norm_num)
